import Mathlib

/-!
Shallow embedding of the calendly backend's availability/slot engine and
booking protocol (package `controller`, files `utils.go`, the meeting and
availability controllers), together with theorems settling the spec claims.

Instants are modelled as `Int` minutes (the Go code constructs every relevant
instant from a calendar date plus hours and minutes, with seconds forced to 0,
so one-minute granularity is exact for the generator; booked-meeting endpoints
are likewise taken at minute granularity).
-/

namespace Calendly

/-- `enum.MeetingStatus` (package-enum section of
`middleware/auth-middleware.go`): `Scheduled = "SCHEDULED"` and
`Cancelled = "CANCELLED"`. -/
inductive MeetingStatus where
  | scheduled
  | cancelled
deriving DecidableEq, Repr

/-- `enum.DayOfWeek` (package-enum section of `middleware/auth-middleware.go`):
the seven weekday values `"SUNDAY"`..`"SATURDAY"`, in the order of
`AllDayOfWeek()`. -/
inductive DayOfWeek where
  | sunday | monday | tuesday | wednesday | thursday | friday | saturday
deriving DecidableEq, Repr

/-- `enum.ErrorCode` from `pkg/enum/error-code.go`. -/
inductive ErrorCode where
  | authUserNotFound
  | authEmailAlreadyExists
  | authInvalidToken
  | authNotFound
  | authTooManyAttempts
  | authUnauthorizedAccess
  | authTokenNotFound
  | accessUnauthorized
  | validationError
  | resourceNotFound
  | internalServerError
  | badRequest
deriving DecidableEq, Repr

/-- An application error as produced by `appError.NewAppError(code, message, err)`
(the `pkg/app-error` package itself is not in the sources; only the code and
message, which are what the controllers choose, are modelled). -/
structure AppErr where
  code : ErrorCode
  message : String
deriving DecidableEq, Repr

/-- `model.Meeting` (`internal/model/model.go`), restricted to the fields the
controllers read or write. Times are `Int` minutes. -/
structure Meeting where
  id : String
  userId : String
  eventId : String
  guestName : String
  guestEmail : String
  startTime : Int
  endTime : Int
  meetLink : String
  calendarEventId : String
  calendarAppType : String
  status : MeetingStatus
deriving DecidableEq, Repr

/-- `IsSlotAvailable` (`utils.go:174-183`): the slot is free iff it overlaps no
meeting; overlap is `slotStart < meeting.EndTime && slotEnd > meeting.StartTime`. -/
def IsSlotAvailable (slotStart slotEnd : Int) (meetings : List Meeting) : Bool :=
  meetings.all fun m => !(slotStart < m.endTime && slotEnd > m.startTime)

/-- Digit run to a number (used by the time parser model). -/
def digitsNat (l : List Char) : Nat :=
  l.foldl (fun a c => 10 * a + (c.toNat - 48)) 0

/-- Split a character list on `:` (used by the time parser model). -/
def splitColon : List Char → List (List Char)
  | [] => [[]]
  | c :: rest =>
    let r := splitColon rest
    if c = ':' then [] :: r
    else
      match r with
      | [] => [[c]]
      | g :: gs => (c :: g) :: gs

/-- Model of `time.Parse("15:04:05", s)` (`utils.go:69-77`): a `HH:MM:SS`
string (hour one or two digits, minute and second two digits, in range) parses
to its hour, minute and second; anything else is a parse error (`none`). -/
def parseDBTime (s : String) : Option (Nat × Nat × Nat) :=
  match splitColon s.toList with
  | [h, m, sec] =>
    if (h.length == 1 || h.length == 2) && m.length == 2 && sec.length == 2
        && h.all Char.isDigit && m.all Char.isDigit && sec.all Char.isDigit then
      let hn := digitsNat h
      let mn := digitsNat m
      let sn := digitsNat sec
      if hn < 24 ∧ mn < 60 ∧ sn < 60 then some (hn, mn, sn) else none
    else none
  | _ => none

/-- Two-digit zero-padded decimal, as Go's `Format` pads hours and minutes. -/
def pad2 (n : Nat) : String :=
  if n < 10 then "0" ++ toString n else toString n

/-- `currentSlotStart.Format("15:04")` for an instant `t` on the day starting
at `dayBase` (minutes from that midnight, shown as a wall clock). -/
def formatSlot (dayBase t : Int) : String :=
  let md := (t - dayBase).toNat
  pad2 (md / 60 % 24) ++ ":" ++ pad2 (md % 60)

/-- The gap actually used by the generator (`utils.go:93-95`): a non-positive
`timeGapMinutes` is replaced by 30. -/
def effectiveGap (timeGapMinutes : Int) : Int :=
  if timeGapMinutes ≤ 0 then 30 else timeGapMinutes

/-- The slot loop of `GenerateAvailableTimeSlots` (`utils.go:97-114`), fuelled:
while `cur < endB`, stop if `cur + duration > endB`, emit `cur` when it is not
in the past (`now ≤ cur`) and free, then advance by the gap. -/
def slotsLoop (endB duration gapEff now : Int) (meetings : List Meeting) :
    Nat → Int → List Int
  | 0, _ => []
  | Nat.succ fuel, cur =>
    if cur < endB then
      if endB < cur + duration then []
      else
        let rest := slotsLoop endB duration gapEff now meetings fuel (cur + gapEff)
        if now ≤ cur && IsSlotAvailable cur (cur + duration) meetings then
          cur :: rest
        else rest
    else []

/-- The slot starts computed by `GenerateAvailableTimeSlots` (`utils.go:82-114`)
once the two time strings have parsed to `(startH, startM)` and `(endH, endM)`.
The cursor base is built, exactly as in the source (`utils.go:82-83`), from
`dayStartParsed.Hour()` and `dayEndParsed.Minute()` — the END time's minute —
while the end boundary uses the end time's hour and minute (`utils.go:85-86`).
`dayBase` is midnight of the target date, `now` the current instant. The fuel
`(endB - base).toNat` is sufficient (proved below). -/
def slotStarts (startH startM endH endM : Nat) (duration timeGap : Int)
    (meetings : List Meeting) (dayBase now : Int) : List Int :=
  let base := dayBase + 60 * (startH : Int) + (endM : Int)
  let endB := dayBase + 60 * (endH : Int) + (endM : Int)
  let _ := startM
  slotsLoop endB duration (effectiveGap timeGap) now meetings (endB - base).toNat base

/-- `GenerateAvailableTimeSlots` (`utils.go:65-117`): parse the open/close
strings (error on failure), then run the slot loop and format each emitted
start as `HH:MM`. -/
def GenerateAvailableTimeSlots (dayStartTimeStr dayEndTimeStr : String)
    (durationMinutes timeGapMinutes : Int) (meetingsOnDate : List Meeting)
    (dayBase now : Int) : Except String (List String) :=
  match parseDBTime dayStartTimeStr with
  | none => .error ("invalid start time format " ++ dayStartTimeStr)
  | some (sh, sm, _) =>
    match parseDBTime dayEndTimeStr with
    | none => .error ("invalid end time format " ++ dayEndTimeStr)
    | some (eh, em, _) =>
      .ok ((slotStarts sh sm eh em durationMinutes timeGapMinutes meetingsOnDate dayBase now).map
        (formatSlot dayBase))

/-- An OAuth token triple as handled by `golang.org/x/oauth2` in
`ValidateGoogleToken` (`utils.go:211-236`). -/
structure OAuthToken where
  accessToken : String
  refreshToken : String
  expiry : Int
deriving DecidableEq, Repr

/-- The observable outcome of `ValidateGoogleToken`: the returned access token
or error, whether a refresh via the token source was attempted, and every
token write to storage performed during the call. -/
structure ValidateResult where
  result : Except AppErr String
  refreshAttempted : Bool
  persistedTokens : List OAuthToken
deriving Repr

/-- `ValidateGoogleToken` (`utils.go:197-237`). With an empty refresh token the
stored access token is returned as-is (the expiry comparison at
`utils.go:204-207` has an empty body). Otherwise the oauth2 token source is
consulted (`tokenSource` parameter models `tokenSource.Token()`); on error an
`AuthInvalidToken` application error is returned. On success the (possibly
refreshed) access token is returned; the source performs no storage write in
either case — the persist call at `utils.go:230-233` is commented out. -/
def ValidateGoogleToken (accessToken refreshToken : String)
    (expiryDateUnix now : Int) (tokenSource : Except String OAuthToken) :
    ValidateResult :=
  let _ := expiryDateUnix
  let _ := now
  if refreshToken = "" then
    { result := .ok accessToken, refreshAttempted := false, persistedTokens := [] }
  else
    match tokenSource with
    | .error _ =>
      { result := .error ⟨.authInvalidToken, "Failed to refresh Google token"⟩,
        refreshAttempted := true, persistedTokens := [] }
    | .ok newToken =>
      { result := .ok newToken.accessToken, refreshAttempted := true,
        persistedTokens := [] }

/-- `enum.EventLocationType` (package-enum section of
`middleware/auth-middleware.go`): exactly the two values
`LocationGoogleMeetAndCalendar` and `LocationZoomMeeting` (Outlook is not an
event location type, per the comment there). -/
inductive LocationType where
  | googleMeetAndCalendar
  | zoomMeeting
deriving DecidableEq, Repr

/-- `enum.IntegrationAppType` (package-enum section of
`middleware/auth-middleware.go`): `AppGoogleMeetAndCalendar`, `AppZoomMeeting`
and `AppOutlookCalendar`. -/
inductive AppType where
  | googleMeetAndCalendar
  | zoomMeeting
  | outlookCalendar
deriving DecidableEq, Repr

/-- The string form of an app type (`string(appType)`, `controller.go:221`),
per the `enum.IntegrationAppType` constants in
`middleware/auth-middleware.go`. -/
def appTypeString : AppType → String
  | .googleMeetAndCalendar => "GOOGLE_MEET_AND_CALENDAR"
  | .zoomMeeting => "ZOOM_MEETING"
  | .outlookCalendar => "OUTLOOK_CALENDAR"

/-- `enum.AllEventLocationType()` (package-enum section of
`middleware/auth-middleware.go`), used for the location validity check at
`controller.go:182`. -/
def AllEventLocationType : List LocationType :=
  [.googleMeetAndCalendar, .zoomMeeting]

/-- `IntegrationAppTypeFromEventLocation` (`utils.go:185-195`). -/
def IntegrationAppTypeFromEventLocation : LocationType → Option AppType
  | .googleMeetAndCalendar => some .googleMeetAndCalendar
  | .zoomMeeting => some .zoomMeeting

/-- `model.Event` (`internal/model/model.go`), fields the booking flow reads. -/
structure Event where
  id : String
  userId : String
  title : String
  duration : Int
  isPrivate : Bool
  locationType : LocationType
deriving DecidableEq, Repr

/-- `model.Integration` (`internal/model/model.go`), fields the booking and
cancellation flows read; a `sql.NullString` refresh token that is NULL or
empty is modelled as `""` (the source treats the two alike, `utils.go:125`). -/
structure Integration where
  userId : String
  appType : AppType
  accessToken : String
  refreshToken : String
  expiryDate : Int
  isConnected : Bool
  userEmail : String
deriving DecidableEq, Repr

/-- `dto.CreateMeetingDto`, the validated booking request body. -/
structure CreateMeetingDto where
  eventId : String
  guestName : String
  guestEmail : String
  additionalInfo : String
  startTime : Int
  endTime : Int
deriving DecidableEq, Repr

/-- Outcome of the remote-calendar phase of `CreateBooking`
(`controller.go:215-258`): client construction failed (`GetCalendarClient`
error), the provider insert failed, or an event was created with the given id
and Meet link. -/
inductive CalendarOutcome where
  | clientError (e : AppErr)
  | insertError (msg : String)
  | created (id : String) (hangoutLink : String)
deriving DecidableEq, Repr

/-- Outcome of the meeting INSERT (`controller.go:276-280`) as reported by the
storage layer: success, a uniqueness/exclusion constraint violation, or some
other database error. -/
inductive InsertOutcome where
  | ok
  | constraintViolation
  | otherDbError
deriving DecidableEq, Repr

/-- Result of `CreateBooking` as observed by the caller. -/
inductive BookingResult where
  | success (meetLink : String) (meeting : Meeting)
  | failure (e : AppErr)
deriving DecidableEq, Repr

/-- `CreateBooking` (`controller.go:137-295`): load the public event, check its
location type, load the owner's connected integration, create the remote
calendar event when the location is Google Meet (any failure there, including
a created event with an empty id, aborts with an error before any write), then
insert the `Scheduled` meeting row. Every insert error — the constraint
violation included — is surfaced as
`AppError(InternalServerError, "Failed to save meeting record")`
(`controller.go:281-285`). Returns the caller-visible result and the meeting
store after the call. -/
def CreateBooking (events : List Event) (integrations : List Integration)
    (meetings : List Meeting) (dto : CreateMeetingDto) (newId : String)
    (calendarApi : CalendarOutcome) (insertOutcome : InsertOutcome) :
    BookingResult × List Meeting :=
  match events.find? (fun e => e.id == dto.eventId && !e.isPrivate) with
  | none => (.failure ⟨.resourceNotFound, "Public event not found"⟩, meetings)
  | some event =>
    if !(AllEventLocationType.contains event.locationType) then
      (.failure ⟨.badRequest, "Event has invalid location type"⟩, meetings)
    else
      match IntegrationAppTypeFromEventLocation event.locationType with
      | none =>
        (.failure ⟨.internalServerError,
          "Cannot map event location to integration app type"⟩, meetings)
      | some requiredAppType =>
        match integrations.find? (fun i =>
            i.userId == event.userId && i.appType == requiredAppType
              && i.isConnected) with
        | none =>
          (.failure ⟨.badRequest,
            "Required integration not found or disconnected for the event owner."⟩,
            meetings)
        | some _ =>
          let remote : Except AppErr (String × String × String) :=
            if event.locationType = .googleMeetAndCalendar then
              match calendarApi with
              | .clientError e => .error ⟨.internalServerError, e.message⟩
              | .insertError _ =>
                .error ⟨.internalServerError, "Failed to create calendar event"⟩
              | .created cid link =>
                if cid = "" then
                  .error ⟨.internalServerError, "Created calendar event missing ID"⟩
                else .ok (link, cid, appTypeString .googleMeetAndCalendar)
            else .ok ("", "", "")
          match remote with
          | .error e => (.failure e, meetings)
          | .ok (meetLink, calId, calApp) =>
            match insertOutcome with
            | .ok =>
              let created : Meeting :=
                { id := newId, userId := event.userId, eventId := event.id,
                  guestName := dto.guestName, guestEmail := dto.guestEmail,
                  startTime := dto.startTime, endTime := dto.endTime,
                  meetLink := meetLink, calendarEventId := calId,
                  calendarAppType := calApp, status := .scheduled }
              (.success meetLink created, meetings ++ [created])
            | _ =>
              (.failure ⟨.internalServerError, "Failed to save meeting record"⟩,
                meetings)

/-- Outcome of the integration lookup during cancellation
(`controller.go:351-357`): a row, `sql.ErrNoRows`, or another database error. -/
inductive IntegrationFetch where
  | found (i : Integration)
  | noRows
  | dbError (msg : String)
deriving Repr

/-- Result of `CancelMeeting` as observed by the caller. -/
inductive CancelResult where
  | success
  | failure (e : AppErr)
deriving DecidableEq, Repr

/-- The meeting store after
`UPDATE meetings SET status = Cancelled WHERE id = meetingId`
(`controller.go:384-385`). -/
def cancelledWith (meetings : List Meeting) (meetingId : String) :
    List Meeting :=
  meetings.map fun m =>
    if m.id == meetingId then { m with status := .cancelled } else m

/-- The log lines of the best-effort remote-deletion phase of `CancelMeeting`
(`controller.go:346-381`): it runs only when a calendar event id and app type
are present, and every failure (integration fetch error, client construction
failure, provider delete failure) is logged and nothing else. -/
def remoteDeletionLogs (meeting : Meeting) (fetch : IntegrationFetch)
    (clientOk deleteOk : Bool) : List String :=
  if meeting.calendarEventId ≠ "" ∧ meeting.calendarAppType ≠ "" then
    match fetch with
    | .dbError _ => ["Warning: Failed to fetch integration for calendar deletion"]
    | .noRows => []
    | .found _ =>
      if !clientOk then ["Warning: Failed to get calendar client for deletion"]
      else if !deleteOk then ["Warning: Failed to delete calendar event"]
      else ["Successfully deleted calendar event"]
  else []

/-- `CancelMeeting` (`controller.go:301-398`): fetch the meeting (not-found
error if absent), fail with `AppError(BadRequest, "Meeting is already
cancelled")` if its status is `Cancelled`, run the best-effort remote deletion
(logs only), then flip the status to `Cancelled`; zero rows affected by the
update is a not-found error. Returns the caller-visible result, the meeting
store after the call, and the remote-phase log. -/
def CancelMeeting (meetings : List Meeting) (meetingId : String)
    (fetch : IntegrationFetch) (clientOk deleteOk : Bool) :
    CancelResult × List Meeting × List String :=
  match meetings.find? (fun m => m.id == meetingId) with
  | none => (.failure ⟨.resourceNotFound, "Meeting not found"⟩, meetings, [])
  | some meeting =>
    if meeting.status = .cancelled then
      (.failure ⟨.badRequest, "Meeting is already cancelled"⟩, meetings, [])
    else
      let logs := remoteDeletionLogs meeting fetch clientOk deleteOk
      let updated := cancelledWith meetings meetingId
      if meetings.countP (fun m => m.id == meetingId) = 0 then
        (.failure ⟨.resourceNotFound, "Meeting (for update) not found"⟩,
          updated, logs)
      else
        (.success, updated, logs)

/-- One row of the availability/day-rule join as used by
`GetPublicEventAvailability` (`AvailabilityDetail`, `type.go:55-62`). -/
structure DayRule where
  timeGap : Int
  day : DayOfWeek
  startTime : String
  endTime : String
  isAvailable : Bool
deriving DecidableEq, Repr

/-- `DailyAvailabilitySlots` (`type.go:48-52`). -/
structure DailyAvailabilitySlots where
  day : DayOfWeek
  slots : List String
  isAvailable : Bool
deriving DecidableEq, Repr

/-- The meetings query of `GetPublicEventAvailability`
(`WHERE user_id = $1 AND start_time < $2 AND end_time > $3`): every meeting of
the owner intersecting the range, with no condition on the status. -/
def meetingsInRange (allMeetings : List Meeting) (userId : String)
    (rangeStart rangeEnd : Int) : List Meeting :=
  allMeetings.filter fun m =>
    m.userId == userId && m.startTime < rangeEnd && m.endTime > rangeStart

/-- The per-day filter of `GetPublicEventAvailability` (meetings overlapping
`[targetDate, targetDate+1day)`). -/
def meetingsForDate (ms : List Meeting) (dayStart dayEnd : Int) :
    List Meeting :=
  ms.filter fun m => m.startTime < dayEnd && m.endTime > dayStart

/-- One iteration of the per-day loop of `GetPublicEventAvailability`: a
missing or unavailable rule yields `⟨day, [], false⟩`; otherwise the slot
generator runs on the day's meetings, a generation error is logged and leaves
the day's slot list empty while the day entry is still produced. -/
def dailyFor (duration timeGap : Int) (inRange : List Meeting) (now : Int)
    (d : DayOfWeek) (rule? : Option DayRule) (dayBase : Int) :
    DailyAvailabilitySlots :=
  match rule? with
  | some r =>
    if r.isAvailable then
      match GenerateAvailableTimeSlots r.startTime r.endTime duration timeGap
          (meetingsForDate inRange dayBase (dayBase + 1440)) dayBase now with
      | .ok slots => ⟨d, slots, true⟩
      | .error _ => ⟨d, [], true⟩
    else ⟨d, [], false⟩
  | none => ⟨d, [], false⟩

/-- The slot-building core of `GetPublicEventAvailability`
(`GET /public/events/.../availability`): fetch the owner's meetings in the
range once, then build one `DailyAvailabilitySlots` per requested day (each
day given with its optional rule and its midnight instant). -/
def GetPublicEventAvailability (days : List (DayOfWeek × Option DayRule × Int))
    (duration timeGap : Int) (allMeetings : List Meeting) (userId : String)
    (rangeStart rangeEnd : Int) (now : Int) : List DailyAvailabilitySlots :=
  let inRange := meetingsInRange allMeetings userId rangeStart rangeEnd
  days.map fun x => dailyFor duration timeGap inRange now x.1 x.2.1 x.2.2

/-- Claim C1 (code bug): the generator does NOT keep every slot inside
`[open, close)`. With open `09:30:00`, close `17:00:00`, duration 60, gap 30,
no meetings, target-date midnight 0 and now 0, the slot cursor base is built
from the start hour and the CLOSE time's minute (`utils.go:82-83`), so the
very first emitted slot is `09:00` — instant 540, strictly before the open
instant `9*60+30 = 570` — and `[540, 600)` is not contained in `[570, 1020)`. -/
theorem c1_slot_before_open_eval :
    GenerateAvailableTimeSlots "09:30:00" "17:00:00" 60 30 [] 0 0 =
      .ok ["09:00", "09:30", "10:00", "10:30", "11:00", "11:30", "12:00",
        "12:30", "13:00", "13:30", "14:00", "14:30", "15:00", "15:30", "16:00"] ∧
    540 ∈ slotStarts 9 30 17 0 60 30 [] 0 0 ∧ (540 : Int) < 0 + 60 * 9 + 30 :=
  ⟨rfl, by decide, by decide⟩

/-- Claim C2 (code bug): the availability meetings query has no status filter,
so a `Cancelled` meeting is fetched and does exclude slots. A cancelled
meeting occupying 10:00–11:00 (instants 600–660) is returned by the range
query, and the availability response for a 09:00–17:00 day (duration 60,
gap 30) omits the slots overlapping it (`09:30`, `10:00`, `10:30`), which are
all present when the meeting is absent. -/
theorem c2_cancelled_meeting_excludes_slot :
    (Meeting.mk "m1" "u1" "e1" "g" "g@e" 600 660 "" "" "" .cancelled).status
        = .cancelled ∧
    meetingsInRange [Meeting.mk "m1" "u1" "e1" "g" "g@e" 600 660 "" "" "" .cancelled]
        "u1" 0 10080 =
      [Meeting.mk "m1" "u1" "e1" "g" "g@e" 600 660 "" "" "" .cancelled] ∧
    GetPublicEventAvailability
        [(.monday, some (DayRule.mk 30 .monday "09:00:00" "17:00:00" true), 0)]
        60 30 [Meeting.mk "m1" "u1" "e1" "g" "g@e" 600 660 "" "" "" .cancelled]
        "u1" 0 10080 0 =
      [⟨.monday, ["09:00", "11:00", "11:30", "12:00", "12:30", "13:00", "13:30",
        "14:00", "14:30", "15:00", "15:30", "16:00"], true⟩] ∧
    GetPublicEventAvailability
        [(.monday, some (DayRule.mk 30 .monday "09:00:00" "17:00:00" true), 0)]
        60 30 [] "u1" 0 10080 0 =
      [⟨.monday, ["09:00", "09:30", "10:00", "10:30", "11:00", "11:30", "12:00",
        "12:30", "13:00", "13:30", "14:00", "14:30", "15:00", "15:30", "16:00"],
        true⟩] :=
  ⟨by decide, by decide, by decide, by decide⟩

/-- Claim C3 (code bug): when the refresh yields an access token different from
the stored one, `ValidateGoogleToken` performs no storage write at all before
returning the new token — the persist call is absent from the source
(`utils.go:230-233` is a comment) — so nothing is persisted. -/
theorem c3_refreshed_token_not_persisted :
    ValidateGoogleToken "old" "refresh" 0 100 (.ok ⟨"new", "refresh", 9999⟩) =
      { result := .ok "new", refreshAttempted := true, persistedTokens := [] } ∧
    "new" ≠ "old" :=
  ⟨rfl, by decide⟩

/-- Claim C4 (code bug): a constraint violation at meeting-insert time is
surfaced as `AppError(InternalServerError, "Failed to save meeting record")`
(`controller.go:281-285`), byte-for-byte the same response as any other
database failure — not a distinct "slot no longer available" conflict. -/
theorem c4_constraint_violation_is_internal_error :
    CreateBooking [Event.mk "e1" "u1" "T" 60 false .googleMeetAndCalendar]
        [Integration.mk "u1" .googleMeetAndCalendar "at" "rt" 0 true "o@e"]
        [] (CreateMeetingDto.mk "e1" "g" "g@e" "" 600 660) "m1"
        (.created "cal1" "link") .constraintViolation =
      (.failure ⟨.internalServerError, "Failed to save meeting record"⟩, []) ∧
    CreateBooking [Event.mk "e1" "u1" "T" 60 false .googleMeetAndCalendar]
        [Integration.mk "u1" .googleMeetAndCalendar "at" "rt" 0 true "o@e"]
        [] (CreateMeetingDto.mk "e1" "g" "g@e" "" 600 660) "m1"
        (.created "cal1" "link") .constraintViolation =
      CreateBooking [Event.mk "e1" "u1" "T" 60 false .googleMeetAndCalendar]
        [Integration.mk "u1" .googleMeetAndCalendar "at" "rt" 0 true "o@e"]
        [] (CreateMeetingDto.mk "e1" "g" "g@e" "" 600 660) "m1"
        (.created "cal1" "link") .otherDbError :=
  ⟨by decide, by decide⟩

/-- Claim C8: with an empty stored refresh token, `ValidateGoogleToken` returns
the original access token unchanged and without error, for every expiry and
every current instant, and never consults the token source (no refresh
attempted, nothing persisted). -/
theorem c8_no_refresh_token_returns_unchanged (accessToken : String)
    (expiryDateUnix now : Int) (tokenSource : Except String OAuthToken) :
    ValidateGoogleToken accessToken "" expiryDateUnix now tokenSource =
      { result := .ok accessToken, refreshAttempted := false,
        persistedTokens := [] } :=
  rfl

/-- Claim C5: when the booked event requires the remote calendar (Google Meet
location) and the remote calendar-event creation fails — client construction
error or provider insert error — `CreateBooking` returns a failure and the
meeting store is unchanged: no `Meeting` row is written, whatever the insert
outcome would have been. -/
theorem c5_remote_failure_aborts_booking (events : List Event)
    (integrations : List Integration) (meetings : List Meeting)
    (dto : CreateMeetingDto) (newId : String) (calendarApi : CalendarOutcome)
    (insertOutcome : InsertOutcome) (event : Event)
    (hev : events.find? (fun e => e.id == dto.eventId && !e.isPrivate) = some event)
    (hloc : event.locationType = .googleMeetAndCalendar)
    (hfail : ∀ cid link, calendarApi ≠ .created cid link) :
    (∃ e, (CreateBooking events integrations meetings dto newId calendarApi
      insertOutcome).1 = .failure e) ∧
    (CreateBooking events integrations meetings dto newId calendarApi
      insertOutcome).2 = meetings := by
  cases hcal : calendarApi with
  | created cid link => exact absurd hcal (hfail cid link)
  | clientError e =>
    cases hfind : integrations.find? (fun i =>
        i.userId == event.userId && i.appType == AppType.googleMeetAndCalendar
          && i.isConnected) with
    | none =>
      unfold CreateBooking
      rw [hev]
      simp [hloc, IntegrationAppTypeFromEventLocation, AllEventLocationType, hfind]
    | some i =>
      unfold CreateBooking
      rw [hev]
      simp [hloc, IntegrationAppTypeFromEventLocation, AllEventLocationType, hfind]
  | insertError msg =>
    cases hfind : integrations.find? (fun i =>
        i.userId == event.userId && i.appType == AppType.googleMeetAndCalendar
          && i.isConnected) with
    | none =>
      unfold CreateBooking
      rw [hev]
      simp [hloc, IntegrationAppTypeFromEventLocation, AllEventLocationType, hfind]
    | some i =>
      unfold CreateBooking
      rw [hev]
      simp [hloc, IntegrationAppTypeFromEventLocation, AllEventLocationType, hfind]

/-- Witness for C5: a concrete public Google Meet event with a connected
integration whose remote event creation fails: the booking fails and the
(empty) meeting store stays empty. -/
theorem c5_witness :
    (∃ e, (CreateBooking [Event.mk "e1" "u1" "T" 60 false .googleMeetAndCalendar]
      [Integration.mk "u1" .googleMeetAndCalendar "at" "rt" 0 true "o@e"]
      [] (CreateMeetingDto.mk "e1" "g" "g@e" "" 600 660) "m1"
      (.insertError "provider 500") .ok).1 = .failure e) ∧
    (CreateBooking [Event.mk "e1" "u1" "T" 60 false .googleMeetAndCalendar]
      [Integration.mk "u1" .googleMeetAndCalendar "at" "rt" 0 true "o@e"]
      [] (CreateMeetingDto.mk "e1" "g" "g@e" "" 600 660) "m1"
      (.insertError "provider 500") .ok).2 = [] :=
  c5_remote_failure_aborts_booking _ _ _ _ _ _ _
    (Event.mk "e1" "u1" "T" 60 false .googleMeetAndCalendar)
    rfl rfl (fun _ _ h => by cases h)

/-- Claim C6: cancelling a meeting whose status is already `Cancelled` returns
the distinct already-cancelled failure — the spec's `ConflictError`, realised
in the source as `AppError(BadRequest, "Meeting is already cancelled")`
(`controller.go:341-344`) — never success, and the meeting store is unchanged. -/
theorem c6_cancel_already_cancelled_conflict (meetings : List Meeting)
    (meetingId : String) (fetch : IntegrationFetch) (clientOk deleteOk : Bool)
    (meeting : Meeting)
    (hfind : meetings.find? (fun m => m.id == meetingId) = some meeting)
    (hstatus : meeting.status = .cancelled) :
    CancelMeeting meetings meetingId fetch clientOk deleteOk =
      (.failure ⟨.badRequest, "Meeting is already cancelled"⟩, meetings, []) ∧
    (CancelMeeting meetings meetingId fetch clientOk deleteOk).1 ≠
      CancelResult.success := by
  unfold CancelMeeting
  rw [hfind]
  simp [hstatus]

/-- Witness for C6: a concrete store holding one cancelled meeting; cancelling
it again yields the already-cancelled failure and leaves the store as it was. -/
theorem c6_witness :
    CancelMeeting [Meeting.mk "m1" "u1" "e1" "g" "g@e" 600 660 "" "" "" .cancelled]
        "m1" .noRows true true =
      (.failure ⟨.badRequest, "Meeting is already cancelled"⟩,
        [Meeting.mk "m1" "u1" "e1" "g" "g@e" 600 660 "" "" "" .cancelled], []) ∧
    (CancelMeeting [Meeting.mk "m1" "u1" "e1" "g" "g@e" 600 660 "" "" "" .cancelled]
        "m1" .noRows true true).1 ≠ CancelResult.success :=
  c6_cancel_already_cancelled_conflict _ _ _ _ _
    (Meeting.mk "m1" "u1" "e1" "g" "g@e" 600 660 "" "" "" .cancelled) rfl rfl

/-- In the store produced by the cancellation update, every meeting carrying the
cancelled id has status `Cancelled`. -/
theorem cancelledWith_status (meetings : List Meeting) (meetingId : String) :
    ∀ m ∈ cancelledWith meetings meetingId, m.id = meetingId →
      m.status = .cancelled := by
  intro m hm hid
  unfold cancelledWith at hm
  rw [List.mem_map] at hm
  obtain ⟨m0, _, hm0⟩ := hm
  by_cases h : m0.id == meetingId
  · rw [if_pos h] at hm0
    rw [← hm0]
  · rw [if_neg h] at hm0
    subst hm0
    exact absurd (beq_iff_eq.mpr hid) h

/-- Claim C7: cancelling a `Scheduled` meeting succeeds for EVERY outcome of the
best-effort remote-deletion phase — integration row found, absent, or the
lookup erroring; calendar client construction succeeding or failing; the
provider delete succeeding or failing. The status update always runs: the
result is success, the store is the status-flipped store (in which the
meeting's status is `Cancelled`), and the remote phase contributed only log
lines. -/
theorem c7_remote_delete_failure_does_not_block (meetings : List Meeting)
    (meetingId : String) (fetch : IntegrationFetch) (clientOk deleteOk : Bool)
    (meeting : Meeting)
    (hfind : meetings.find? (fun m => m.id == meetingId) = some meeting)
    (hstatus : meeting.status = .scheduled) :
    CancelMeeting meetings meetingId fetch clientOk deleteOk =
      (.success, cancelledWith meetings meetingId,
        remoteDeletionLogs meeting fetch clientOk deleteOk) ∧
    ∀ m ∈ cancelledWith meetings meetingId, m.id = meetingId →
      m.status = .cancelled := by
  refine ⟨?_, cancelledWith_status meetings meetingId⟩
  have hp := List.find?_some hfind
  have hmem : meeting ∈ meetings := List.mem_of_find?_eq_some hfind
  have hcount : meetings.countP (fun m => m.id == meetingId) ≠ 0 := by
    rw [Ne, List.countP_eq_zero]
    intro hall
    exact absurd hp (by simpa using hall meeting hmem)
  unfold CancelMeeting
  rw [hfind]
  have hnc : meeting.status ≠ MeetingStatus.cancelled := by
    rw [hstatus]; intro h; cases h
  simp [hnc, hcount]

/-- Witness for C7: a concrete scheduled meeting with an associated remote
event; the integration is found but the provider delete fails, yet the
cancellation succeeds and flips the status. -/
theorem c7_witness :
    CancelMeeting
        [Meeting.mk "m1" "u1" "e1" "g" "g@e" 600 660 "L" "cal1"
          "GOOGLE_MEET_AND_CALENDAR" .scheduled] "m1"
        (.found (Integration.mk "u1" .googleMeetAndCalendar "at" "rt" 0 true "o@e"))
        true false =
      (.success,
        cancelledWith
          [Meeting.mk "m1" "u1" "e1" "g" "g@e" 600 660 "L" "cal1"
            "GOOGLE_MEET_AND_CALENDAR" .scheduled] "m1",
        remoteDeletionLogs
          (Meeting.mk "m1" "u1" "e1" "g" "g@e" 600 660 "L" "cal1"
            "GOOGLE_MEET_AND_CALENDAR" .scheduled)
          (.found (Integration.mk "u1" .googleMeetAndCalendar "at" "rt" 0 true "o@e"))
          true false) ∧
    ∀ m ∈ cancelledWith
        [Meeting.mk "m1" "u1" "e1" "g" "g@e" 600 660 "L" "cal1"
          "GOOGLE_MEET_AND_CALENDAR" .scheduled] "m1",
      m.id = "m1" → m.status = .cancelled :=
  c7_remote_delete_failure_does_not_block _ _ _ _ _
    (Meeting.mk "m1" "u1" "e1" "g" "g@e" 600 660 "L" "cal1"
      "GOOGLE_MEET_AND_CALENDAR" .scheduled) rfl rfl

/-- The day entry built for a weekday always carries that weekday, whatever the
rule and generation outcome. -/
theorem dailyFor_day (duration timeGap : Int) (inRange : List Meeting)
    (now : Int) (d : DayOfWeek) (r? : Option DayRule) (dayBase : Int) :
    (dailyFor duration timeGap inRange now d r? dayBase).day = d := by
  unfold dailyFor
  cases r? with
  | none => rfl
  | some r =>
    by_cases h : r.isAvailable = true
    · simp only [h, if_true]
      cases GenerateAvailableTimeSlots r.startTime r.endTime duration timeGap
          (meetingsForDate inRange dayBase (dayBase + 1440)) dayBase now <;> rfl
    · simp [h]

/-- Claim C9: a slot-generation error for one day is swallowed: that day is
reported with an empty slot list (still marked available), and the
availability response always contains exactly one entry per requested day, in
order — a failing day never aborts the request or drops other days. -/
theorem c9_generation_error_day_empty (duration timeGap : Int)
    (inRange : List Meeting) (now : Int) (d : DayOfWeek) (r : DayRule)
    (dayBase : Int) (msg : String)
    (havail : r.isAvailable = true)
    (herr : GenerateAvailableTimeSlots r.startTime r.endTime duration timeGap
      (meetingsForDate inRange dayBase (dayBase + 1440)) dayBase now =
        .error msg) :
    dailyFor duration timeGap inRange now d (some r) dayBase = ⟨d, [], true⟩ ∧
    ∀ (days : List (DayOfWeek × Option DayRule × Int)) (allMeetings : List Meeting)
      (userId : String) (rangeStart rangeEnd : Int),
      (GetPublicEventAvailability days duration timeGap allMeetings userId
          rangeStart rangeEnd now).map DailyAvailabilitySlots.day =
        days.map Prod.fst := by
  constructor
  · simp [dailyFor, havail, herr]
  · intro days allMeetings userId rangeStart rangeEnd
    unfold GetPublicEventAvailability
    rw [List.map_map]
    exact List.map_congr_left fun x _ => dailyFor_day _ _ _ _ _ _ _

/-- Witness for C9: a day rule whose stored open time `bad` fails to parse:
the day is reported as `⟨monday, [], true⟩`, and a request for that day plus a
healthy tuesday still returns both day entries in order. -/
theorem c9_witness :
    (dailyFor 60 30 [] 0 .monday
      (some (DayRule.mk 30 .monday "bad" "17:00:00" true)) 0 =
        ⟨.monday, [], true⟩) ∧
    ((GetPublicEventAvailability
        [(.monday, some (DayRule.mk 30 .monday "bad" "17:00:00" true), 0),
          (.tuesday, some (DayRule.mk 30 .tuesday "09:00:00" "17:00:00" true), 1440)]
        60 30 [] "u1" 0 10080 0).map DailyAvailabilitySlots.day =
      [DayOfWeek.monday, DayOfWeek.tuesday]) := by
  have h := c9_generation_error_day_empty 60 30 [] 0 .monday
    (DayRule.mk 30 .monday "bad" "17:00:00" true) 0
    "invalid start time format bad" rfl rfl
  exact ⟨h.1, h.2 _ _ _ _ _⟩

/-- With a positive gap the slot loop is insensitive to its fuel as soon as the
fuel covers the distance from the cursor to the day-end boundary: the cursor
strictly increases each iteration and reaches the boundary within that many
steps. -/
theorem slotsLoop_fuel_stable (endB duration gapEff now : Int)
    (meetings : List Meeting) (hgap : 1 ≤ gapEff) :
    ∀ (fuel1 fuel2 : Nat) (cur : Int),
      endB - cur ≤ (fuel1 : Int) → endB - cur ≤ (fuel2 : Int) →
      slotsLoop endB duration gapEff now meetings fuel1 cur =
        slotsLoop endB duration gapEff now meetings fuel2 cur := by
  intro fuel1
  induction fuel1 with
  | zero =>
    intro fuel2 cur h1 h2
    have hnot : ¬ cur < endB := by omega
    cases fuel2 with
    | zero => rfl
    | succ f2 => simp [slotsLoop, hnot]
  | succ f1 ih =>
    intro fuel2 cur h1 h2
    by_cases hlt : cur < endB
    · cases fuel2 with
      | zero => exact absurd hlt (by omega)
      | succ f2 =>
        simp only [slotsLoop, if_pos hlt]
        by_cases hend : endB < cur + duration
        · simp [hend]
        · simp only [if_neg hend]
          rw [ih f2 (cur + gapEff) (by omega) (by omega)]
    · cases fuel2 with
      | zero => simp [slotsLoop, hlt]
      | succ f2 => simp [slotsLoop, hlt]

/-- Claim C10: `GenerateAvailableTimeSlots` terminates on every input: the gap
actually used is positive (a non-positive supplied gap is replaced by 30,
`utils.go:93-95`), so the cursor strictly increases and any fuel covering the
distance from the cursor base to the day-end boundary — in particular the fuel
`slotStarts` itself uses — computes the loop's final value. -/
theorem c10_generator_terminates (startH startM endH endM : Nat)
    (duration timeGap : Int) (meetings : List Meeting) (dayBase now : Int)
    (fuel : Nat)
    (hfuel : dayBase + 60 * (endH : Int) + (endM : Int)
        - (dayBase + 60 * (startH : Int) + (endM : Int)) ≤ (fuel : Int)) :
    0 < effectiveGap timeGap ∧
    slotsLoop (dayBase + 60 * (endH : Int) + (endM : Int)) duration
        (effectiveGap timeGap) now meetings fuel
        (dayBase + 60 * (startH : Int) + (endM : Int)) =
      slotStarts startH startM endH endM duration timeGap meetings dayBase now := by
  have hgap : 1 ≤ effectiveGap timeGap := by
    unfold effectiveGap; split <;> omega
  refine ⟨by omega, ?_⟩
  unfold slotStarts
  exact slotsLoop_fuel_stable _ _ _ _ _ hgap fuel _ _ hfuel (Int.self_le_toNat _)

/-- Witness for C10: a 09:00–17:00 day with a non-positive supplied gap (-5):
the clamped gap is positive and a generous fuel of 2000 iterations computes
exactly the generator's slot list. -/
theorem c10_witness :
    0 < effectiveGap (-5) ∧
    slotsLoop 1020 60 (effectiveGap (-5)) 0 [] 2000 540 =
      slotStarts 9 0 17 0 60 (-5) [] 0 0 :=
  c10_generator_terminates 9 0 17 0 60 (-5) [] 0 0 2000 (by decide)

end Calendly
